import Mathlib

/-!
Verification development for the channel-identifier resolution pipeline of
the flow-fusion repository (file src/app/api/youtube/channel/resolve-id/route.ts).

Strings are modelled as lists of characters (`Str`).  The JavaScript string
primitives used by the route (`split`, `includes`, `replace` with a string
pattern, `parseInt`, the falsy test `!s` and `a || b`) are embedded below as
executable functions.  Outbound I/O (HTTP fetch, XML parsing, the headless
browser) is modelled by oracles: an `Env` record maps each requested handle to
the response the outside world would give, and the route's code is translated
as a pure function of that environment.
-/

namespace FlowFusion

/-- Strings as lists of characters, following the JS string values. -/
abbrev Str := List Char

/-- Conversion from Lean string literals to the model's string type. -/
def str (s : String) : Str := s.toList

/-- Boolean prefix test on character lists (used to model regex literal
matching and JS `startsWith`-like scanning). -/
def isPrefixOfL : Str → Str → Bool
  | [], _ => true
  | _ :: _, [] => false
  | a :: as, b :: bs => a == b && isPrefixOfL as bs

/-- JS `String.prototype.includes`: does `needle` occur as a contiguous
substring (at any position, including the end-of-string position)? -/
def containsSub (needle : Str) : Str → Bool
  | [] => isPrefixOfL needle []
  | c :: rest => isPrefixOfL needle (c :: rest) || containsSub needle rest

/-- Fuel-indexed worker for JS `String.prototype.split` with a nonempty string
separator: scan left to right, cut at each (non-overlapping) occurrence of the
separator.  The fuel only serves to make the recursion structural; it is never
exhausted when it starts at `s.length + 1`. -/
def jsSplitF : Nat → Str → Str → List Str
  | 0, _, s => [s]
  | _ + 1, _, [] => [[]]
  | f + 1, sep, c :: rest =>
    if isPrefixOfL sep (c :: rest) then
      [] :: jsSplitF f sep (List.drop (sep.length - 1) rest)
    else
      match jsSplitF f sep rest with
      | t :: ts => (c :: t) :: ts
      | [] => [[c]]

/-- JS `s.split(sep)` for a nonempty separator `sep`. -/
def jsSplit (sep s : Str) : List Str := jsSplitF (s.length + 1) sep s

/-- Worker for JS `String.prototype.replace` with a string pattern: replace
only the first occurrence of `pat`, leave the string unchanged when `pat`
does not occur. -/
def replaceFirstAux (pat repl : Str) : Str → Str
  | [] => []
  | c :: rest =>
    if isPrefixOfL pat (c :: rest) then repl ++ List.drop pat.length (c :: rest)
    else c :: replaceFirstAux pat repl rest

/-- JS `s.replace(pat, repl)` with a string pattern (first occurrence only;
an empty pattern inserts `repl` at the front, as in JS). -/
def jsReplaceFirst (pat repl s : Str) : Str :=
  if pat = [] then repl ++ s else replaceFirstAux pat repl s

/-- Numeric value of a list of decimal digit characters. -/
def digitsToNat (s : Str) : Nat :=
  s.foldl (fun a c => a * 10 + (c.toNat - 48)) 0

/-- Value of the longest decimal-digit prefix, `none` when there is none. -/
def digitsVal (s : Str) : Option Nat :=
  let ds := s.takeWhile Char.isDigit
  if ds.isEmpty then none else some (digitsToNat ds)

/-- JS `parseInt(s, 10)`: skip leading whitespace, read an optional sign and
then the longest run of decimal digits; `none` models the JS result `NaN`. -/
def jsParseInt (s : Str) : Option Int :=
  let s1 := s.dropWhile Char.isWhitespace
  match s1 with
  | '-' :: rest => (digitsVal rest).map (fun n => -(n : Int))
  | '+' :: rest => (digitsVal rest).map (fun n => (n : Int))
  | _ => (digitsVal s1).map (fun n => (n : Int))

/-- A JS number that is either an integer or `NaN` (the only values the
route's `parseInt` call can produce). -/
inductive JsNum where
  | int (n : Int)
  | nan
deriving DecidableEq, Repr

/-- The route's `parseInt(viewCount, 10)` as a `JsNum`. -/
def jsParseIntNum (s : Str) : JsNum :=
  match jsParseInt s with
  | some n => JsNum.int n
  | none => JsNum.nan

/-- JS `a || b` on strings: `b` when `a` is empty (falsy), else `a`. -/
def jsOrStr (a b : Str) : Str := if a = [] then b else a

/-- JS `a || b` where `a` is a string-or-undefined and `b` a string. -/
def jsOrOpt (a : Option Str) (b : Str) : Str :=
  match a with
  | some s => if s = [] then b else s
  | none => b

/-- JS `a || null` where `a` is a string-or-undefined: empty strings and
undefined both collapse to `null` (`none`). -/
def jsOrNull (a : Option Str) : Option Str :=
  match a with
  | some s => if s = [] then none else some s
  | none => none

/-- Tokens that may follow the capture group in the route's regular
expressions: a literal string, or `\d+` (a nonempty digit run). -/
inductive TailTok where
  | lit (l : Str)
  | digits
deriving DecidableEq

/-- Match a list of tail tokens against a prefix of `s`.  In every pattern of
the route the token after a maximal-munch run is a character excluded from
that run, so this backtracking-free matcher agrees with the JS regex. -/
def matchTail : List TailTok → Str → Bool
  | [], _ => true
  | TailTok.lit l :: ts, s => isPrefixOfL l s && matchTail ts (List.drop l.length s)
  | TailTok.digits :: ts, s =>
    let run := s.takeWhile Char.isDigit
    !run.isEmpty && matchTail ts (List.drop run.length s)

/-- Try to match, at the start of `s`, a regex of the shape
`pre([^bad]+)tail` and return the capture.  The capture is the maximal
nonempty run of characters different from `bad`; every `tail` in the route
starts with `bad`, so maximal munch is exact. -/
def tryCapAt (pre : Str) (bad : Char) (tail : List TailTok) (s : Str) : Option Str :=
  if isPrefixOfL pre s then
    let rest := List.drop pre.length s
    let run := rest.takeWhile (fun c => !(c == bad))
    if run.isEmpty then none
    else if matchTail tail (List.drop run.length rest) then some run
    else none
  else none

/-- JS `s.match(/pre([^bad]+)tail/)`: leftmost match of a single-capture
pattern, returning the capture group. -/
def scanCap (pre : Str) (bad : Char) (tail : List TailTok) : Str → Option Str
  | [] => none
  | c :: rest =>
    match tryCapAt pre bad tail (c :: rest) with
    | some r => some r
    | none => scanCap pre bad tail rest

/-- Character class `[a-zA-Z0-9_-]` of the stable channel-ID regex. -/
def isIdChar (c : Char) : Bool := c.isAlphanum || c == '-' || c == '_'

/-- The stable channel-ID shape used by the route's fallback regex:
the prefix `UC` followed by exactly 22 characters from `[a-zA-Z0-9_-]`. -/
def isStableChannelId (s : Str) : Bool :=
  match s with
  | 'U' :: 'C' :: rest => rest.length == 22 && rest.all isIdChar
  | _ => false

/-- Literal part of the fallback regex `/"channelId":"(UC[a-zA-Z0-9_-]{22})"/`. -/
def chanLit : Str := str ("\"channelId\":\"")

/-- Try the fallback channel-ID regex at the start of `s`. -/
def tryChannelIdAt (s : Str) : Option Str :=
  if isPrefixOfL chanLit s then
    match List.drop chanLit.length s with
    | 'U' :: 'C' :: rest =>
      let body := List.take 22 rest
      if body.length == 22 && body.all isIdChar && ((List.drop 22 rest).head? == some '"') then
        some ('U' :: 'C' :: body)
      else none
    | _ => none
  else none

/-- JS `html.match(/"channelId":"(UC[a-zA-Z0-9_-]{22})"/)`, leftmost match. -/
def scanChannelId : Str → Option Str
  | [] => none
  | c :: rest =>
    match tryChannelIdAt (c :: rest) with
    | some r => some r
    | none => scanChannelId rest

/-! Literal fragments of the regular expressions in route.ts. -/

/-- Literal prefix of `/<meta property="og:url" content="([^"]+)"/`. -/
def ogUrlPre : Str := str ("<meta property=\"og:url\" content=\"")

/-- Literal prefix of `/<meta name="title" content="([^"]+)"/`. -/
def metaTitlePre : Str := str ("<meta name=\"title\" content=\"")

/-- Literal prefix of `/<meta property="og:title" content="([^"]+)"/`. -/
def ogTitlePre : Str := str ("<meta property=\"og:title\" content=\"")

/-- Literal prefix of the document-title pattern. -/
def titleOpen : Str := str ("<title>")

/-- Closing literal of the document-title pattern. -/
def titleClose : Str := str ("</title>")

/-- Literal prefix of the avatar-thumbnail pattern. -/
def avatarPre : Str := str ("\"avatar\":\x7b\"thumbnails\":[\x7b\"url\":\"")

/-- Literal prefix of `/<meta property="og:image" content="([^"]+)"/`. -/
def ogImagePre : Str := str ("<meta property=\"og:image\" content=\"")

/-- Literal prefix of the generic thumbnails pattern. -/
def thumbsPre : Str := str ("\"thumbnails\":[\x7b\"url\":\"")

/-- Tail of the generic thumbnails pattern
`","width":\d+,"height":\d+}]` (after the capture). -/
def thumbsTail : List TailTok :=
  [TailTok.lit (str ("\",\"width\":")), TailTok.digits,
   TailTok.lit (str (",\"height\":")), TailTok.digits,
   TailTok.lit (str ("\x7d]"))]

/-- A double quote, the closing literal of the meta-content patterns. -/
def quoteStr : Str := str ("\"")

/-- The path marker `/channel/` used throughout the route. -/
def channelSeg : Str := str ("/channel/")

/-- A single slash (separator of URL path segments). -/
def slashStr : Str := str ("/")

/-- The site-name suffix stripped from document titles. -/
def ytSuffix : Str := str (" - YouTube")

/-! Data model of the route. -/

/-- One `<entry>` of the parsed Atom feed, keeping exactly the optional chains
the route reads.  Each field is `none` when any link of the corresponding
optional chain (`media:group`, `media:thumbnail`, `media:community`,
`media:statistics`, `yt:videoId`, `published`) is absent. -/
structure FeedEntry where
  thumbUrl : Option Str
  views : Option Str
  videoId : Option Str
  published : Option Str
deriving DecidableEq

/-- The `result.feed` object produced by `xml2js`.  The three required chains
(`author[0].name[0]`, `author[0].uri[0]`, `title[0]`) throw a `TypeError` when
absent, which the route's `catch` turns into a fallback; they are therefore
`Option`s here.  A missing `entry` array and an `entry` array are both
modelled by `entries` (the route only reads `entry?.[1]`). -/
structure ParsedFeed where
  authorName : Option Str
  authorUri : Option Str
  feedTitle : Option Str
  entries : List FeedEntry
deriving DecidableEq

/-- The `data` record each strategy returns on success.  `channelId` is an
`Option` because the feed path computes it as `uri.split("/").pop()`, whose
TypeScript type is `string | undefined`. -/
structure ResData where
  author : Str
  uri : Str
  title : Str
  thumbnail : Option Str
  viewCount : Option JsNum
  lastVideoId : Option Str
  lastVideoDate : Option Str
  channelId : Option Str
deriving DecidableEq

/-- The errors thrown inside the route.  `scrapeWrapped` is the
`Failed to scrape channel info: ...` rewrap of the browser scraper's
`catch`; each constructor carries the data its JS message interpolates. -/
inductive RErr where
  | channelNotFound (name : Str)
  | fetchPageFailed (status : Nat)
  | idNotFoundInHtml
  | htmlNetwork
  | navigationError
  | evalError
  | noChannelUrl
  | selectorTimeout
  | browserLaunch
  | scrapeWrapped (e : RErr)
deriving DecidableEq

/-- Response of the plain HTTP fetch of the channel page. -/
structure HtmlResp where
  status : Nat
  body : Str
deriving DecidableEq

/-- Oracle for one browser session: the outcome of every awaited browser
operation of `scrapeChannelInfo`.  `gotoResult` is `none` when `page.goto`
throws (navigation error or navigation timeout), `some none` when it returns
`null`, and `some (some s)` when it returns a response with status `s`.
`selectorAppears` is false when all three indicator waits time out.
`evalUrl`, `evalTitle` and `evalImage` are the three values the
`page.evaluate` callback computes from the rendered DOM. -/
structure BrowserEnv where
  launchOk : Bool
  gotoResult : Option (Option Nat)
  selectorAppears : Bool
  pageUrl : Str
  pageTitle : Str
  evalThrows : Bool
  evalUrl : Str
  evalTitle : Str
  evalImage : Option Str

/-- Oracle for everything outside the route: per-handle responses of the feed
fetch (`none` = the fetch itself rejects; the parse component is `none` when
`xml2js` rejects), of the channel-page fetch, and of the browser session. -/
structure Env where
  feedResp : Str → Option (Nat × Option ParsedFeed)
  htmlResp : Str → Option HtmlResp
  browser : Str → BrowserEnv

/-- One outbound strategy invocation, recorded with the handle it was
invoked with. -/
inductive Call where
  | feed (name : Str)
  | html (name : Str)
  | browser (name : Str)
deriving DecidableEq, BEq

/-- The JSON body the HTTP handler returns: the success payload
(`Response.json(result.data)`), the handler's own missing-parameter failure,
or a terminal failure carrying the escaped error. -/
inductive ApiResponse where
  | payload (d : ResData)
  | failure (msg : Str)
  | failureErr (e : RErr)
deriving DecidableEq

/-- The `ok` getter of a fetch `Response`: status in the range 200-299. -/
def httpOk (s : Nat) : Prop := 200 ≤ s ∧ s ≤ 299

instance (s : Nat) : Decidable (httpOk s) := by
  unfold httpOk
  exact inferInstance

/-! The three strategies, translated from route.ts. -/

/-- The inline extraction `u.split("/channel/")[1].split("/")[0]` used by
`extractChannelIdFromHtml` (line 169) and `scrapeChannelInfo` (lines 75 and
122); both call sites guard it with `u.includes("/channel/")`. -/
def channelIdFromChannelUrl (u : Str) : Str :=
  List.getD (jsSplit slashStr (List.getD (jsSplit channelSeg u) 1 [])) 0 []

/-- The channel-ID computation of `extractChannelIdFromHtml` (lines 165-177):
prefer the `/channel/` segment of the `og:url` meta content, else the
embedded `"channelId":"UC..."` token; `none` means the route throws
`Channel ID not found in page HTML`. -/
def htmlChannelId (html : Str) : Option Str :=
  match scanCap ogUrlPre '"' [TailTok.lit quoteStr] html with
  | some cap =>
    if containsSub channelSeg cap then some (channelIdFromChannelUrl cap)
    else scanChannelId html
  | none => scanChannelId html

/-- First match of the three title patterns of `extractChannelIdFromHtml`
(lines 185-189), in source order: `name="title"` meta, `og:title` meta,
document `<title>` element. -/
def rawTitleMatch (html : Str) : Option Str :=
  match scanCap metaTitlePre '"' [TailTok.lit quoteStr] html with
  | some t => some t
  | none =>
    match scanCap ogTitlePre '"' [TailTok.lit quoteStr] html with
    | some t => some t
    | none => scanCap titleOpen '<' [TailTok.lit titleClose] html

/-- Title extraction of `extractChannelIdFromHtml` (lines 183-197): the first
pattern match with `" - YouTube"` removed via JS `replace` (first occurrence
only), falling back to the input handle. -/
def extractTitle (html : Str) (channelName : Str) : Str :=
  match rawTitleMatch html with
  | some t => jsReplaceFirst ytSuffix [] t
  | none => channelName

/-- Thumbnail extraction of `extractChannelIdFromHtml` (lines 199-213):
first match of the avatar pattern, the `og:image` meta, or the generic
thumbnails pattern; `none` when no pattern matches. -/
def extractThumb (html : Str) : Option Str :=
  match scanCap avatarPre '"' [TailTok.lit quoteStr] html with
  | some t => some t
  | none =>
    match scanCap ogImagePre '"' [TailTok.lit quoteStr] html with
    | some t => some t
    | none => scanCap thumbsPre '"' thumbsTail html

/-- The success record of `extractChannelIdFromHtml` (lines 233-245).  The
subscriber-count regex of lines 216-220 only feeds a `console.log` and is
omitted.  `og` is the `og:url` capture reused for the canonical URL. -/
def htmlSuccessData (html : Str) (channelName : Str) (channelId : Str) (og : Option Str) : ResData :=
  { author := extractTitle html channelName
    uri := jsOrOpt og (str ("https://www.youtube.com/channel/") ++ channelId)
    title := extractTitle html channelName
    thumbnail := extractThumb html
    viewCount := none
    lastVideoId := none
    lastVideoDate := none
    channelId := some channelId }

/-- `extractChannelIdFromHtml` (lines 150-250) as a function of the page
response: 404 and non-2xx statuses throw, then the channel ID, title and
thumbnail are pattern-matched out of the body. -/
def extractChannelIdFromHtml (resp : Option HtmlResp) (channelName : Str) : Except RErr ResData :=
  match resp with
  | none => Except.error RErr.htmlNetwork
  | some r =>
    if r.status = 404 then Except.error (RErr.channelNotFound channelName)
    else if httpOk r.status then
      match htmlChannelId r.body with
      | none => Except.error RErr.idNotFoundInHtml
      | some channelId =>
        Except.ok (htmlSuccessData r.body channelName channelId
          (scanCap ogUrlPre '"' [TailTok.lit quoteStr] r.body))
    else Except.error (RErr.fetchPageFailed r.status)

/-- `getBrowser` (lines 5-31): launching the browser either yields a handle
or rejects (modelled by the oracle's `launchOk`). -/
def getBrowser (benv : BrowserEnv) : Option Unit :=
  if benv.launchOk then some () else none

/-- The result built from the post-navigation URL when all indicator waits
time out (lines 73-90 of `scrapeChannelInfo`). -/
def scrapeUrlFallbackData (benv : BrowserEnv) (channelName : Str) : ResData :=
  { author := jsOrStr benv.pageTitle channelName
    uri := benv.pageUrl
    title := jsOrStr benv.pageTitle channelName
    thumbnail := none
    viewCount := some (JsNum.int 0)
    lastVideoId := none
    lastVideoDate := none
    channelId := some (channelIdFromChannelUrl benv.pageUrl) }

/-- The result built from the evaluated DOM metadata (lines 116-139 of
`scrapeChannelInfo`). -/
def scrapeEvalData (benv : BrowserEnv) (channelName : Str) : ResData :=
  { author := jsOrStr benv.evalTitle channelName
    uri := benv.evalUrl
    title := jsOrStr benv.evalTitle channelName
    thumbnail := jsOrNull benv.evalImage
    viewCount := some (JsNum.int 0)
    lastVideoId := none
    lastVideoDate := none
    channelId :=
      if containsSub channelSeg benv.evalUrl then some (channelIdFromChannelUrl benv.evalUrl)
      else List.getLast? (jsSplit slashStr benv.evalUrl) }

/-- Body of the `try` block of `scrapeChannelInfo` (lines 36-139): navigate,
check for 404, wait for an indicator element (falling back to the
post-navigation URL on timeout), evaluate the DOM, and build the result. -/
def scrapeBody (benv : BrowserEnv) (channelName : Str) : Except RErr ResData :=
  match benv.gotoResult with
  | none => Except.error RErr.navigationError
  | some st =>
    if st = some 404 then Except.error (RErr.channelNotFound channelName)
    else if benv.selectorAppears then
      if benv.evalThrows then Except.error RErr.evalError
      else if benv.evalUrl = [] then Except.error RErr.noChannelUrl
      else Except.ok (scrapeEvalData benv channelName)
    else
      if containsSub channelSeg benv.pageUrl then
        Except.ok (scrapeUrlFallbackData benv channelName)
      else Except.error RErr.selectorTimeout

/-- `scrapeChannelInfo` (lines 33-148).  The returned boolean records whether
`browser.close()` ran: the `finally` block closes the browser on every exit
of the `try`/`catch`, while a launch rejection happens before the `try` and
propagates with no browser to close.  The `catch` rewraps every error as
`Failed to scrape channel info: ...`. -/
def scrapeChannelInfo (benv : BrowserEnv) (channelName : Str) : Except RErr ResData × Bool :=
  match getBrowser benv with
  | none => (Except.error RErr.browserLaunch, false)
  | some _ =>
    match scrapeBody benv channelName with
    | Except.ok d => (Except.ok d, true)
    | Except.error e => (Except.error (RErr.scrapeWrapped e), true)

/-! The feed fetcher and the orchestration inside `fetchChannelFeed`. -/

/-- `channelName.replace("@", "")` (line 255): removes the first `@` only. -/
def stripAt (channelName : Str) : Str := jsReplaceFirst (str ("@")) [] channelName

/-- `result.feed.entry?.[1]` (line 280): the second feed entry, if any. -/
def feedEntry1 (feed : ParsedFeed) : Option FeedEntry := List.get? feed.entries 1

/-- The raw view-count string (lines 292-295): the `views` attribute of the
second entry's statistics chain, with `|| "0"` collapsing an absent chain or
an empty attribute to `"0"`. -/
def feedViewCountRaw (e : Option FeedEntry) : Str :=
  match e with
  | some en =>
    match en.views with
    | some v => if v = [] then str ("0") else v
    | none => str ("0")
  | none => str ("0")

/-- The success record of the feed path (lines 304-316), given the required
author name `a`, author URI `u` and feed title `t`: the optional fields come
from the second entry, and `channelId` is `uri.split("/").pop()`. -/
def feedSuccessData (feed : ParsedFeed) (a u t : Str) : ResData :=
  { author := a
    uri := u
    title := t
    thumbnail := jsOrNull (Option.bind (feedEntry1 feed) (fun e => e.thumbUrl))
    viewCount := some (jsParseIntNum (feedViewCountRaw (feedEntry1 feed)))
    lastVideoId := Option.bind (feedEntry1 feed) (fun e => e.videoId)
    lastVideoDate := Option.bind (feedEntry1 feed) (fun e => e.published)
    channelId := List.getLast? (jsSplit slashStr u) }

/-- The HTML-extraction strategy bound to the environment. -/
def runHtml (env : Env) (name : Str) : Except RErr ResData :=
  extractChannelIdFromHtml (env.htmlResp name) name

/-- The browser strategy bound to the environment. -/
def runScrape (env : Env) (name : Str) : Except RErr ResData × Bool :=
  scrapeChannelInfo (env.browser name) name

/-- The `try html catch scrape` fallback blocks of `fetchChannelFeed`
(lines 263-268 and 321-327), with the trace of strategy invocations. -/
def htmlThenScrape (env : Env) (name : Str) : Except RErr ResData × List Call :=
  match runHtml env name with
  | Except.ok d => (Except.ok d, [Call.html name])
  | Except.error _ => ((runScrape env name).1, [Call.html name, Call.browser name])

/-- Prepend the feed invocation to a fallback outcome. -/
def withFeed (ns : Str) (p : Except RErr ResData × List Call) : Except RErr ResData × List Call :=
  (p.1, Call.feed ns :: p.2)

/-- `fetchChannelFeed` (lines 252-329), returning the result together with
the trace of strategy invocations.  The feed URL uses the handle with its
first `@` removed.  A 404 triggers the inner fallback with the stripped
handle; when its scrape also throws, the throw lands in the outer `catch`,
which runs the fallback a second time with the original handle.  Every other
feed failure (fetch rejection, non-2xx status, parse rejection, missing
required field) reaches the outer `catch` and runs the fallback with the
original handle. -/
def fetchChannelFeed (env : Env) (channelName : Str) : Except RErr ResData × List Call :=
  match env.feedResp (stripAt channelName) with
  | none => withFeed (stripAt channelName) (htmlThenScrape env channelName)
  | some (status, parsed) =>
    if status = 404 then
      match runHtml env (stripAt channelName) with
      | Except.ok d =>
        (Except.ok d, [Call.feed (stripAt channelName), Call.html (stripAt channelName)])
      | Except.error _ =>
        match (runScrape env (stripAt channelName)).1 with
        | Except.ok d =>
          (Except.ok d,
           [Call.feed (stripAt channelName), Call.html (stripAt channelName),
            Call.browser (stripAt channelName)])
        | Except.error _ =>
          withFeed (stripAt channelName)
            ((htmlThenScrape env channelName).1,
             Call.html (stripAt channelName) :: Call.browser (stripAt channelName) ::
               (htmlThenScrape env channelName).2)
    else if httpOk status then
      match parsed with
      | some feed =>
        match feed.authorName, feed.authorUri, feed.feedTitle with
        | some a, some u, some t =>
          (Except.ok (feedSuccessData feed a u t), [Call.feed (stripAt channelName)])
        | _, _, _ => withFeed (stripAt channelName) (htmlThenScrape env channelName)
      | none => withFeed (stripAt channelName) (htmlThenScrape env channelName)
    else withFeed (stripAt channelName) (htmlThenScrape env channelName)

/-- The HTTP handler `GET` (lines 331-350): a missing or empty `channelName`
query parameter short-circuits to the structured failure body with no
strategy invoked; otherwise the pipeline result's `data` is returned, and an
escaped error becomes `{ success: false, error: message }`. -/
def GET (env : Env) (channelName : Option Str) : ApiResponse × List Call :=
  match channelName with
  | none => (ApiResponse.failure (str ("Channel name is required")), [])
  | some n =>
    if n = [] then (ApiResponse.failure (str ("Channel name is required")), [])
    else
      match fetchChannelFeed env n with
      | (Except.ok d, cs) => (ApiResponse.payload d, cs)
      | (Except.error e, cs) => (ApiResponse.failureErr e, cs)

/-! Concrete environments used to evaluate the pipeline on closed inputs. -/

/-- The YouTube origin, the part of the canonical channel URL before the
`/channel/` marker. -/
def ytHost : Str := str ("https://www.youtube.com")

/-- A browser whose launch rejects. -/
def benvFail : BrowserEnv :=
  { launchOk := false, gotoResult := none, selectorAppears := false,
    pageUrl := [], pageTitle := [], evalThrows := false,
    evalUrl := [], evalTitle := [], evalImage := none }

/-- A browser session that launches, navigates with status 200, finds an
indicator element and evaluates the canonical metadata. -/
def benvEvalOk : BrowserEnv :=
  { launchOk := true, gotoResult := some (some 200), selectorAppears := true,
    pageUrl := str ("https://www.youtube.com/channel/UCabcdefghijklmnopqrst12"),
    pageTitle := str ("Creator"), evalThrows := false,
    evalUrl := str ("https://www.youtube.com/channel/UCabcdefghijklmnopqrst12"),
    evalTitle := str ("Creator"), evalImage := none }

/-- A parsed feed with all required fields and no entries. -/
def feedCreator : ParsedFeed :=
  { authorName := some (str ("Creator")),
    authorUri := some (str ("https://www.youtube.com/channel/UCabcdefghijklmnopqrst12")),
    feedTitle := some (str ("Creator")),
    entries := [] }

/-- Environment where the feed endpoint answers 200 with `feedCreator`. -/
def envFeedOk : Env :=
  { feedResp := fun _ => some (200, some feedCreator),
    htmlResp := fun _ => none,
    browser := fun _ => benvFail }

/-- Environment where the feed endpoint answers 404 and both fallback
strategies fail for every handle. -/
def env404All : Env :=
  { feedResp := fun _ => some (404, none),
    htmlResp := fun _ => none,
    browser := fun _ => benvFail }

/-- A second feed entry whose statistics views attribute is not numeric. -/
def entryViewsAbc : FeedEntry :=
  { thumbUrl := some (str ("https://img.example/t1")),
    views := some (str ("abc")),
    videoId := some (str ("v1")),
    published := some (str ("2024-01-01T00:00:00+00:00")) }

/-- A first feed entry (the route never reads its fields). -/
def entryFirst : FeedEntry :=
  { thumbUrl := some (str ("https://img.example/t0")),
    views := some (str ("7")),
    videoId := some (str ("v0")),
    published := some (str ("2023-01-01T00:00:00+00:00")) }

/-- A feed whose second entry carries the non-numeric views value. -/
def feedViewsAbc : ParsedFeed :=
  { feedCreator with entries := [entryFirst, entryViewsAbc] }

/-- Environment where the feed succeeds with `feedViewsAbc`. -/
def envViewsAbc : Env :=
  { envFeedOk with feedResp := fun _ => some (200, some feedViewsAbc) }

/-- A feed whose author URI ends in a segment that is not a stable channel
ID. -/
def feedBadId : ParsedFeed :=
  { feedCreator with authorUri := some (str ("https://www.youtube.com/channel/abc")) }

/-- Environment where the feed succeeds with `feedBadId`. -/
def envBadId : Env :=
  { envFeedOk with feedResp := fun _ => some (200, some feedBadId) }

/-- A channel page whose title meta is exactly the spec's example. -/
def htmlMyChannel : Str :=
  str ("<meta name=\"title\" content=\"My Channel - YouTube\">")

/-- A channel page whose matched title contains the site-name suffix twice. -/
def htmlDoubleSuffix : Str :=
  str ("<meta name=\"title\" content=\"A - YouTube B - YouTube\">")

/-! Supporting lemmas about the embedded JS string primitives. -/

theorem isPrefixOfL_refl (p : Str) : isPrefixOfL p p = true := by
  induction p with
  | nil => rfl
  | cons a as ih => simp [isPrefixOfL, ih]

theorem isPrefixOfL_append_self (p v : Str) : isPrefixOfL p (p ++ v) = true := by
  induction p with
  | nil => rfl
  | cons a as ih => simp [isPrefixOfL, ih]

theorem isPrefixOfL_of_append (p u z : Str) (hlen : p.length ≤ u.length)
    (h : isPrefixOfL p (u ++ z) = true) : isPrefixOfL p u = true := by
  induction p generalizing u with
  | nil => rfl
  | cons a as ih =>
    cases u with
    | nil => simp at hlen
    | cons b bs =>
      simp only [List.cons_append, isPrefixOfL, Bool.and_eq_true] at h ⊢
      exact ⟨h.1, ih bs (by simpa using hlen) h.2⟩

theorem containsSub_cons_false (needle : Str) (c : Char) (rest : Str)
    (h : containsSub needle (c :: rest) = false) :
    isPrefixOfL needle (c :: rest) = false ∧ containsSub needle rest = false := by
  simpa [containsSub, Bool.or_eq_false_iff] using h

theorem replaceFirstAux_append_self (pat : Str) (hne : pat ≠ []) (n : Str)
    (h : containsSub pat (n ++ List.dropLast pat) = false) :
    replaceFirstAux pat [] (n ++ pat) = n := by
  induction n with
  | nil =>
    cases pat with
    | nil => exact absurd rfl hne
    | cons c cs =>
      simp [replaceFirstAux, isPrefixOfL_refl, List.drop_length]
  | cons a n' ih =>
    have h' := containsSub_cons_false pat a (n' ++ List.dropLast pat) (by simpa using h)
    have hpre : isPrefixOfL pat (a :: (n' ++ pat)) = false := by
      by_contra hc
      have htrue : isPrefixOfL pat (a :: (n' ++ pat)) = true := by
        cases hb : isPrefixOfL pat (a :: (n' ++ pat)) with
        | false => exact absurd hb hc
        | true => rfl
      have hsplit : a :: (n' ++ pat) =
          (a :: (n' ++ List.dropLast pat)) ++ [pat.getLast hne] := by
        simp [List.append_assoc, List.dropLast_append_getLast hne]
      have hlen : pat.length ≤ (a :: (n' ++ List.dropLast pat)).length := by
        have hp : 1 ≤ pat.length := List.length_pos.mpr hne
        simp [List.length_cons, List.length_append, List.length_dropLast]
        omega
      have := isPrefixOfL_of_append pat (a :: (n' ++ List.dropLast pat))
        [pat.getLast hne] hlen (by rw [← hsplit]; exact htrue)
      rw [this] at h'
      exact absurd h'.1 (by simp)
    show replaceFirstAux pat [] (a :: (n' ++ pat)) = a :: n'
    rw [show replaceFirstAux pat [] (a :: (n' ++ pat)) =
        (if isPrefixOfL pat (a :: (n' ++ pat)) = true then
          [] ++ List.drop pat.length (a :: (n' ++ pat))
        else a :: replaceFirstAux pat [] (n' ++ pat)) from rfl]
    rw [if_neg (by simp [hpre])]
    rw [ih h'.2]

theorem jsReplaceFirst_append_self (pat : Str) (hne : pat ≠ []) (n : Str)
    (h : containsSub pat (n ++ List.dropLast pat) = false) :
    jsReplaceFirst pat [] (n ++ pat) = n := by
  unfold jsReplaceFirst
  rw [if_neg hne]
  exact replaceFirstAux_append_self pat hne n h

theorem jsSplitF_ne_nil (f : Nat) (sep s : Str) : jsSplitF f sep s ≠ [] := by
  match f, s with
  | 0, s => simp [jsSplitF]
  | f + 1, [] => simp [jsSplitF]
  | f + 1, c :: rest =>
    simp only [jsSplitF]
    split
    · simp
    · cases h : jsSplitF f sep rest <;> simp

theorem jsSplitF_fuel_irrel (f : Nat) : ∀ (g : Nat) (sep s : Str),
    s.length < f → s.length < g → jsSplitF f sep s = jsSplitF g sep s := by
  induction f with
  | zero => intro g sep s hf; omega
  | succ f ih =>
    intro g sep s hf hg
    cases g with
    | zero => omega
    | succ g =>
      cases s with
      | nil => simp [jsSplitF]
      | cons c rest =>
        simp only [jsSplitF]
        by_cases hp : isPrefixOfL sep (c :: rest) = true
        · rw [if_pos hp, if_pos hp]
          have hd : (List.drop (sep.length - 1) rest).length < f := by
            have := List.length_drop (sep.length - 1) rest
            simp at hf
            omega
          have hd2 : (List.drop (sep.length - 1) rest).length < g := by
            have := List.length_drop (sep.length - 1) rest
            simp at hg
            omega
          rw [ih g sep _ hd hd2]
        · rw [if_neg hp, if_neg hp]
          have hr : rest.length < f := by simp at hf; omega
          have hr2 : rest.length < g := by simp at hg; omega
          rw [ih g sep rest hr hr2]

theorem jsSplitF_not_contains (sep : Str) (_hne : sep ≠ []) (f : Nat) : ∀ s : Str,
    s.length < f → containsSub sep s = false → jsSplitF f sep s = [s] := by
  induction f with
  | zero => intro s hf; omega
  | succ f ih =>
    intro s hf hc
    cases s with
    | nil => simp [jsSplitF]
    | cons c rest =>
      have h' := containsSub_cons_false sep c rest hc
      simp only [jsSplitF, h'.1, Bool.false_eq_true, if_false]
      rw [ih rest (by simp at hf; omega) h'.2]

theorem jsSplit_not_contains (sep s : Str) (hne : sep ≠ [])
    (hc : containsSub sep s = false) : jsSplit sep s = [s] :=
  jsSplitF_not_contains sep hne (s.length + 1) s (by omega) hc

theorem jsSplitF_head_takeWhile (a : Char) (f : Nat) : ∀ s : Str, s.length < f →
    List.getD (jsSplitF f [a] s) 0 [] = s.takeWhile (fun c => !(c == a)) := by
  induction f with
  | zero => intro s hf; omega
  | succ f ih =>
    intro s hf
    cases s with
    | nil => simp [jsSplitF]
    | cons c rest =>
      by_cases hac : a = c
      · subst hac
        have htrue : isPrefixOfL [a] (a :: rest) = true := by simp [isPrefixOfL]
        simp only [jsSplitF, htrue, if_true]
        simp [List.takeWhile]
      · have hca : (c == a) = false := beq_eq_false_iff_ne.mpr (fun hq => hac hq.symm)
        have hfalse : isPrefixOfL [a] (c :: rest) = false := by
          simp [isPrefixOfL, beq_eq_false_iff_ne.mpr hac]
        simp only [jsSplitF, hfalse, Bool.false_eq_true, if_false]
        cases hsp : jsSplitF f [a] rest with
        | nil => exact absurd hsp (jsSplitF_ne_nil f [a] rest)
        | cons t ts =>
          have hih := ih rest (by simp at hf; omega)
          rw [hsp] at hih
          simp only [List.getD_cons_zero] at hih ⊢
          simp [List.takeWhile, hca, hih]

theorem jsSplit_head_takeWhile (a : Char) (s : Str) :
    List.getD (jsSplit [a] s) 0 [] = s.takeWhile (fun c => !(c == a)) :=
  jsSplitF_head_takeWhile a (s.length + 1) s (by omega)

theorem jsSplit_append_sep (sep : Str) (hne : sep ≠ []) (v : Str) : ∀ a : Str,
    containsSub sep (a ++ List.dropLast sep) = false →
    jsSplit sep (a ++ (sep ++ v)) = a :: jsSplit sep v := by
  intro a
  induction a with
  | nil =>
    intro _
    cases sep with
    | nil => exact absurd rfl hne
    | cons c cs =>
      show jsSplitF (((c :: cs) ++ v).length + 1) (c :: cs) ((c :: cs) ++ v) = _
      have htrue : isPrefixOfL (c :: cs) (c :: (cs ++ v)) = true := by
        have := isPrefixOfL_append_self (c :: cs) v
        simpa using this
      rw [show ((c :: cs) ++ v) = c :: (cs ++ v) from rfl]
      simp only [jsSplitF, htrue, if_true]
      have hdrop : List.drop ((c :: cs).length - 1) (cs ++ v) = v := by
        have : (c :: cs).length - 1 = cs.length := by simp
        rw [this, List.drop_left]
      rw [hdrop]
      rw [jsSplitF_fuel_irrel _ (v.length + 1) (c :: cs) v
        (by simp [List.length_append]; omega) (by omega)]
      rfl
  | cons x a' ih =>
    intro h
    have h' := containsSub_cons_false sep x (a' ++ List.dropLast sep) (by simpa using h)
    have hpre : isPrefixOfL sep (x :: (a' ++ (sep ++ v))) = false := by
      by_contra hc
      have htrue : isPrefixOfL sep (x :: (a' ++ (sep ++ v))) = true := by
        cases hb : isPrefixOfL sep (x :: (a' ++ (sep ++ v))) with
        | false => exact absurd hb hc
        | true => rfl
      have hsplit : x :: (a' ++ (sep ++ v)) =
          (x :: (a' ++ List.dropLast sep)) ++ ([sep.getLast hne] ++ v) := by
        conv_lhs => rw [← List.dropLast_append_getLast hne]
        simp [List.append_assoc]
      have hlen : sep.length ≤ (x :: (a' ++ List.dropLast sep)).length := by
        have hp : 1 ≤ sep.length := List.length_pos.mpr hne
        simp [List.length_cons, List.length_append, List.length_dropLast]
        omega
      have := isPrefixOfL_of_append sep (x :: (a' ++ List.dropLast sep))
        ([sep.getLast hne] ++ v) hlen (by rw [← hsplit]; exact htrue)
      rw [this] at h'
      exact absurd h'.1 (by simp)
    show jsSplitF (((x :: a') ++ (sep ++ v)).length + 1) sep ((x :: a') ++ (sep ++ v)) = _
    rw [show ((x :: a') ++ (sep ++ v)) = x :: (a' ++ (sep ++ v)) from rfl]
    simp only [jsSplitF, hpre, Bool.false_eq_true, if_false]
    have hfuel : jsSplitF (x :: (a' ++ (sep ++ v))).length sep (a' ++ (sep ++ v)) =
        jsSplit sep (a' ++ (sep ++ v)) := by
      apply jsSplitF_fuel_irrel
      · simp
      · omega
    rw [hfuel, ih h'.2]

theorem takeWhile_append_of_all (p : Char → Bool) (l r : Str) (h : l.all p = true) :
    (l ++ r).takeWhile p = l ++ r.takeWhile p := by
  induction l with
  | nil => simp
  | cons c cs ih =>
    simp only [List.all_cons, Bool.and_eq_true] at h
    simp [List.takeWhile, h.1, ih h.2]

theorem takeWhile_of_all (p : Char → Bool) (l : Str) (h : l.all p = true) :
    l.takeWhile p = l := by
  have := takeWhile_append_of_all p l [] h
  simpa using this

/-! Lemmas about the success records of the three strategies. -/

theorem jsSplit_ne_nil (sep s : Str) : jsSplit sep s ≠ [] :=
  jsSplitF_ne_nil (s.length + 1) sep s

theorem jsSplit_getLast_isSome (sep s : Str) :
    (List.getLast? (jsSplit sep s)).isSome = true := by
  rw [List.getLast?_isSome]
  exact jsSplit_ne_nil sep s

theorem feedSuccessData_channelId_isSome (feed : ParsedFeed) (a u t : Str) :
    (feedSuccessData feed a u t).channelId.isSome = true :=
  jsSplit_getLast_isSome slashStr u

theorem extractChannelIdFromHtml_ok_channelId (resp : Option HtmlResp) (name : Str)
    (d : ResData) (h : extractChannelIdFromHtml resp name = Except.ok d) :
    d.channelId.isSome = true := by
  unfold extractChannelIdFromHtml at h
  split at h
  · exact absurd h (by simp)
  · split at h
    · exact absurd h (by simp)
    · split at h
      · split at h
        · exact absurd h (by simp)
        · have hd := Except.ok.inj h
          rw [← hd]
          simp [htmlSuccessData]
      · exact absurd h (by simp)

theorem scrapeChannelInfo_ok_channelId (benv : BrowserEnv) (name : Str)
    (d : ResData) (h : (scrapeChannelInfo benv name).1 = Except.ok d) :
    d.channelId.isSome = true := by
  unfold scrapeChannelInfo at h
  split at h
  · exact absurd h (by simp)
  · split at h
    all_goals simp only at h
    case _ d0 hbody =>
      have hd : d0 = d := Except.ok.inj h
      subst hd
      unfold scrapeBody at hbody
      split at hbody
      · exact absurd hbody (by simp)
      · split at hbody
        · exact absurd hbody (by simp)
        · split at hbody
          · split at hbody
            · exact absurd hbody (by simp)
            · split at hbody
              · exact absurd hbody (by simp)
              · have hd0 := Except.ok.inj hbody
                rw [← hd0]
                unfold scrapeEvalData
                by_cases hch : containsSub channelSeg benv.evalUrl = true
                · simp [hch]
                · simp [hch, jsSplit_getLast_isSome]
          · split at hbody
            · have hd0 := Except.ok.inj hbody
              rw [← hd0]
              simp [scrapeUrlFallbackData]
            · exact absurd hbody (by simp)
    case _ e heq => exact absurd h (by simp)

theorem htmlThenScrape_ok_channelId (env : Env) (name : Str) (d : ResData)
    (h : (htmlThenScrape env name).1 = Except.ok d) : d.channelId.isSome = true := by
  unfold htmlThenScrape at h
  cases hh : runHtml env name with
  | ok d0 =>
    rw [hh] at h
    simp only at h
    have : d0 = d := Except.ok.inj h
    subst this
    exact extractChannelIdFromHtml_ok_channelId (env.htmlResp name) name d0 hh
  | error e =>
    rw [hh] at h
    simp only at h
    exact scrapeChannelInfo_ok_channelId (env.browser name) name d h

theorem htmlThenScrape_calls (env : Env) (name : Str) :
    (htmlThenScrape env name).2 = [Call.html name] ∨
    (htmlThenScrape env name).2 = [Call.html name, Call.browser name] := by
  unfold htmlThenScrape
  cases runHtml env name with
  | ok d => left; rfl
  | error e => right; rfl

/-! Branch equations of `fetchChannelFeed`, one per failure mode of the
feed attempt. -/

theorem fetchChannelFeed_fetch_throws (env : Env) (name : Str)
    (h : env.feedResp (stripAt name) = none) :
    fetchChannelFeed env name = withFeed (stripAt name) (htmlThenScrape env name) := by
  unfold fetchChannelFeed
  rw [h]

theorem fetchChannelFeed_feed_success (env : Env) (name : Str) (st : Nat)
    (feed : ParsedFeed) (a u t : Str)
    (hresp : env.feedResp (stripAt name) = some (st, some feed))
    (hst : st ≠ 404) (hok : httpOk st)
    (ha : feed.authorName = some a) (hu : feed.authorUri = some u)
    (ht : feed.feedTitle = some t) :
    fetchChannelFeed env name =
      (Except.ok (feedSuccessData feed a u t), [Call.feed (stripAt name)]) := by
  unfold fetchChannelFeed
  rw [hresp]
  dsimp only
  rw [if_neg hst, if_pos hok, ha, hu, ht]

theorem fetchChannelFeed_status_error (env : Env) (name : Str) (st : Nat)
    (parsed : Option ParsedFeed)
    (hresp : env.feedResp (stripAt name) = some (st, parsed))
    (hst : st ≠ 404) (hok : ¬httpOk st) :
    fetchChannelFeed env name = withFeed (stripAt name) (htmlThenScrape env name) := by
  unfold fetchChannelFeed
  rw [hresp]
  dsimp only
  rw [if_neg hst, if_neg hok]

theorem fetchChannelFeed_parse_error (env : Env) (name : Str) (st : Nat)
    (hresp : env.feedResp (stripAt name) = some (st, none))
    (hst : st ≠ 404) (hok : httpOk st) :
    fetchChannelFeed env name = withFeed (stripAt name) (htmlThenScrape env name) := by
  unfold fetchChannelFeed
  rw [hresp]
  dsimp only
  rw [if_neg hst, if_pos hok]

theorem fetchChannelFeed_missing_field (env : Env) (name : Str) (st : Nat)
    (feed : ParsedFeed)
    (hresp : env.feedResp (stripAt name) = some (st, some feed))
    (hst : st ≠ 404) (hok : httpOk st)
    (hmiss : feed.authorName = none ∨ feed.authorUri = none ∨ feed.feedTitle = none) :
    fetchChannelFeed env name = withFeed (stripAt name) (htmlThenScrape env name) := by
  unfold fetchChannelFeed
  rw [hresp]
  dsimp only
  rw [if_neg hst, if_pos hok]
  rcases feed with ⟨an, au, ft, es⟩
  rcases hmiss with hm | hm | hm <;> simp only at hm <;> rw [hm] <;>
    cases an <;> cases au <;> cases ft <;> rfl

theorem fetchChannelFeed_404_html_ok (env : Env) (name : Str)
    (parsed : Option ParsedFeed) (d : ResData)
    (hresp : env.feedResp (stripAt name) = some (404, parsed))
    (hrun : runHtml env (stripAt name) = Except.ok d) :
    fetchChannelFeed env name =
      (Except.ok d, [Call.feed (stripAt name), Call.html (stripAt name)]) := by
  unfold fetchChannelFeed
  rw [hresp]
  dsimp only
  rw [if_pos rfl, hrun]

theorem fetchChannelFeed_404_scrape_ok (env : Env) (name : Str)
    (parsed : Option ParsedFeed) (e : RErr) (d : ResData)
    (hresp : env.feedResp (stripAt name) = some (404, parsed))
    (hrun : runHtml env (stripAt name) = Except.error e)
    (hscr : (runScrape env (stripAt name)).1 = Except.ok d) :
    fetchChannelFeed env name =
      (Except.ok d,
       [Call.feed (stripAt name), Call.html (stripAt name),
        Call.browser (stripAt name)]) := by
  unfold fetchChannelFeed
  rw [hresp]
  dsimp only
  rw [if_pos rfl, hrun]
  dsimp only
  rw [hscr]

theorem fetchChannelFeed_404_both_fail (env : Env) (name : Str)
    (parsed : Option ParsedFeed) (e e2 : RErr)
    (hresp : env.feedResp (stripAt name) = some (404, parsed))
    (hrun : runHtml env (stripAt name) = Except.error e)
    (hscr : (runScrape env (stripAt name)).1 = Except.error e2) :
    fetchChannelFeed env name =
      ((htmlThenScrape env name).1,
       Call.feed (stripAt name) :: Call.html (stripAt name) ::
         Call.browser (stripAt name) :: (htmlThenScrape env name).2) := by
  unfold fetchChannelFeed
  rw [hresp]
  dsimp only
  rw [if_pos rfl, hrun]
  dsimp only
  rw [hscr]
  rfl

/-! Claim theorems. -/

/-- C5: in the feed fetcher the optional fields (thumbnail, view count,
latest video ID, latest video date) are taken from the second feed entry
(index 1) and never from the first entry: the success record is unchanged
when the first entry is replaced by any other entry, and the entry the
optional fields are read from is exactly the head of the remaining list. -/
theorem c5_second_entry_fields :
    ∀ (an au ft : Option Str) (e0 e0' : FeedEntry) (rest : List FeedEntry) (a u t : Str),
    feedSuccessData ⟨an, au, ft, e0 :: rest⟩ a u t =
      feedSuccessData ⟨an, au, ft, e0' :: rest⟩ a u t
  ∧ feedEntry1 ⟨an, au, ft, e0 :: rest⟩ = List.get? rest 0 :=
  fun _ _ _ _ _ _ _ _ _ => ⟨rfl, rfl⟩

/-- C6: a GET request with no `channelName` query parameter returns the
structured body `{ success: false, error: "Channel name is required" }` and
invokes no strategy (the call trace is empty). -/
theorem c6_missing_channel_name :
    ∀ env : Env,
    GET env none = (ApiResponse.failure (str ("Channel name is required")), []) :=
  fun _ => rfl

/-- C7: once the browser is launched, `browser.close()` runs on every exit
path of the scrape (success, thrown error during navigation, waiting or
evaluation, and timeout), and a browser-launch failure surfaces as an error
to the caller with no browser session left open. -/
theorem c7_browser_always_closed :
    ∀ (benv : BrowserEnv) (name : Str),
    (benv.launchOk = true → (scrapeChannelInfo benv name).2 = true)
  ∧ (benv.launchOk = false →
      scrapeChannelInfo benv name = (Except.error RErr.browserLaunch, false)) := by
  intro benv name
  constructor
  · intro h
    unfold scrapeChannelInfo getBrowser
    rw [if_pos h]
    cases scrapeBody benv name <;> rfl
  · intro h
    unfold scrapeChannelInfo getBrowser
    rw [if_neg (by simp [h])]

/-- Witness for C7 at two concrete browser environments: a session that
launches and evaluates successfully is closed, and a launch rejection
surfaces as the launch error. -/
theorem c7_browser_always_closed_witness :
    (scrapeChannelInfo benvEvalOk (str ("creator"))).2 = true ∧
    scrapeChannelInfo benvFail (str ("creator")) =
      (Except.error RErr.browserLaunch, false) :=
  ⟨(c7_browser_always_closed benvEvalOk (str ("creator"))).1 rfl,
   (c7_browser_always_closed benvFail (str ("creator"))).2 rfl⟩

/-- C3 (amended): the feed fetcher parses the views attribute of the second
entry with `parseInt`: `views="12345"` yields the integer 12345 and an
absent attribute yields 0 (via the `|| "0"` default), but a present,
nonempty value on which `parseInt` fails (no leading digits) yields `NaN`,
not 0. -/
theorem c3_view_count_parse :
    ∀ (an au ft : Option Str) (e0 : FeedEntry) (th vid pub : Option Str)
      (rest : List FeedEntry) (a u t : Str) (v : Str),
    (feedSuccessData ⟨an, au, ft, e0 :: ⟨th, some (str ("12345")), vid, pub⟩ :: rest⟩
        a u t).viewCount = some (JsNum.int 12345)
  ∧ (feedSuccessData ⟨an, au, ft, e0 :: ⟨th, none, vid, pub⟩ :: rest⟩
        a u t).viewCount = some (JsNum.int 0)
  ∧ (v ≠ [] → jsParseInt v = none →
      (feedSuccessData ⟨an, au, ft, e0 :: ⟨th, some v, vid, pub⟩ :: rest⟩
          a u t).viewCount = some JsNum.nan) := by
  intro an au ft e0 th vid pub rest a u t v
  refine ⟨rfl, rfl, ?_⟩
  intro hv hnone
  simp [feedSuccessData, feedEntry1, feedViewCountRaw, jsParseIntNum, hv, hnone]

/-- Witness for C3 at a concrete second entry whose views value is "abc". -/
theorem c3_view_count_parse_witness :
    (feedSuccessData ⟨none, none, none, [entryFirst, entryViewsAbc]⟩
      (str ("a")) (str ("u")) (str ("t"))).viewCount = some JsNum.nan := by
  have h := (c3_view_count_parse none none none entryFirst
    (some (str ("https://img.example/t1"))) (some (str ("v1")))
    (some (str ("2024-01-01T00:00:00+00:00")))
    [] (str ("a")) (str ("u")) (str ("t")) (str ("abc"))).2.2
    (by decide) (by decide)
  exact h

/-- Counterexample to C3 as stated: running the whole pipeline on a feed
whose second entry has `views="abc"` succeeds with `viewCount = NaN`,
not the claimed 0. -/
theorem c3_counterexample :
    (fetchChannelFeed envViewsAbc (str ("creator"))).1 =
      Except.ok (feedSuccessData feedViewsAbc (str ("Creator"))
        (str ("https://www.youtube.com/channel/UCabcdefghijklmnopqrst12"))
        (str ("Creator")))
  ∧ (feedSuccessData feedViewsAbc (str ("Creator"))
      (str ("https://www.youtube.com/channel/UCabcdefghijklmnopqrst12"))
      (str ("Creator"))).viewCount = some JsNum.nan
  ∧ some JsNum.nan ≠ some (JsNum.int 0) := by
  refine ⟨rfl, by decide, by decide⟩

/-- C10: a feed response that fetches with a 2xx status and parses with the
required author name, author URI and title succeeds even with fewer than two
entries: the fallbacks are not invoked, `thumbnail` is `null`, `viewCount`
is 0, and the latest-video fields are absent. -/
theorem c10_feed_few_entries :
    ∀ (env : Env) (name : Str) (st : Nat) (feed : ParsedFeed) (a u t : Str),
    env.feedResp (stripAt name) = some (st, some feed) → st ≠ 404 → httpOk st →
    feed.authorName = some a → feed.authorUri = some u → feed.feedTitle = some t →
    feed.entries.length ≤ 1 →
    fetchChannelFeed env name =
      (Except.ok (feedSuccessData feed a u t), [Call.feed (stripAt name)])
  ∧ (feedSuccessData feed a u t).thumbnail = none
  ∧ (feedSuccessData feed a u t).viewCount = some (JsNum.int 0)
  ∧ (feedSuccessData feed a u t).lastVideoId = none
  ∧ (feedSuccessData feed a u t).lastVideoDate = none := by
  intro env name st feed a u t hresp hst hok ha hu ht hlen
  have hentry : feedEntry1 feed = none := by
    unfold feedEntry1
    exact List.get?_eq_none.mpr hlen
  refine ⟨fetchChannelFeed_feed_success env name st feed a u t hresp hst hok ha hu ht,
    ?_, ?_, ?_, ?_⟩ <;>
    simp [feedSuccessData, hentry, feedViewCountRaw, jsParseIntNum, jsOrNull, jsParseInt,
      digitsVal, digitsToNat, str]

/-- Witness for C10: a concrete 200-status feed with zero entries resolves
through the feed fetcher alone with the default optional fields. -/
theorem c10_feed_few_entries_witness :
    fetchChannelFeed envFeedOk (str ("creator")) =
      (Except.ok (feedSuccessData feedCreator (str ("Creator"))
        (str ("https://www.youtube.com/channel/UCabcdefghijklmnopqrst12"))
        (str ("Creator"))), [Call.feed (stripAt (str ("creator")))])
  ∧ (feedSuccessData feedCreator (str ("Creator"))
      (str ("https://www.youtube.com/channel/UCabcdefghijklmnopqrst12"))
      (str ("Creator"))).thumbnail = none := by
  have h := c10_feed_few_entries envFeedOk (str ("creator")) 200 feedCreator
    (str ("Creator"))
    (str ("https://www.youtube.com/channel/UCabcdefghijklmnopqrst12"))
    (str ("Creator"))
    rfl (by decide) (by decide) rfl rfl rfl (by decide)
  exact ⟨h.1, h.2.1⟩

/-- C2 (amended): the inline extraction `u.split("/channel/")[1].split("/")[0]`
returns everything after the first `/channel/` marker up to the next slash:
a trailing slash (and anything after it) is dropped, but a query string
attached directly to the ID with `?` is retained in the result. -/
theorem c2_channel_id_extraction :
    ∀ (id tail q : Str),
    (id.all (fun c => !(c == '/')) = true →
     containsSub channelSeg (id ++ '/' :: tail) = false →
     channelIdFromChannelUrl (ytHost ++ (channelSeg ++ (id ++ '/' :: tail))) = id)
  ∧ (id.all (fun c => !(c == '/')) = true → q.all (fun c => !(c == '/')) = true →
     containsSub channelSeg (id ++ '?' :: q) = false →
     channelIdFromChannelUrl (ytHost ++ (channelSeg ++ (id ++ '?' :: q))) =
       id ++ '?' :: q) := by
  intro id tail q
  have hbase : containsSub channelSeg (ytHost ++ List.dropLast channelSeg) = false := by
    decide
  have hch : channelSeg ≠ [] := by decide
  constructor
  · intro hall hnc
    unfold channelIdFromChannelUrl
    rw [jsSplit_append_sep channelSeg hch (id ++ '/' :: tail) ytHost hbase]
    rw [jsSplit_not_contains channelSeg (id ++ '/' :: tail) hch hnc]
    simp only [List.getD_cons_succ, List.getD_cons_zero]
    rw [show slashStr = ['/'] from rfl]
    rw [jsSplit_head_takeWhile '/' (id ++ '/' :: tail)]
    rw [takeWhile_append_of_all _ id _ hall]
    simp [List.takeWhile]
  · intro hall hq hnc
    unfold channelIdFromChannelUrl
    rw [jsSplit_append_sep channelSeg hch (id ++ '?' :: q) ytHost hbase]
    rw [jsSplit_not_contains channelSeg (id ++ '?' :: q) hch hnc]
    simp only [List.getD_cons_succ, List.getD_cons_zero]
    rw [show slashStr = ['/'] from rfl]
    rw [jsSplit_head_takeWhile '/' (id ++ '?' :: q)]
    rw [takeWhile_append_of_all _ id _ hall]
    simp [List.takeWhile, takeWhile_of_all _ q hq]

/-- Witness for C2 at a concrete URL with a trailing path: the segment after
`/channel/` is returned without the slash or the rest of the path. -/
theorem c2_channel_id_extraction_witness :
    channelIdFromChannelUrl
      (ytHost ++ (channelSeg ++ (str ("UCx") ++ '/' :: str ("videos")))) = str ("UCx") :=
  (c2_channel_id_extraction (str ("UCx")) (str ("videos")) []).1 (by decide) (by decide)

/-- Counterexample to C2 as stated: with a query string directly after the
ID, the extraction keeps the query string, so the result is not the bare
path segment. -/
theorem c2_counterexample :
    channelIdFromChannelUrl (str ("https://www.youtube.com/channel/UC123?si=8")) =
      str ("UC123?si=8")
  ∧ str ("UC123?si=8") ≠ str ("UC123") :=
  ⟨rfl, by decide⟩

/-- C4 (amended): the title extraction removes the first occurrence of
`" - YouTube"` anywhere in the matched title (JS `replace` with a string
pattern), so when the suffix occurs only at the end the extracted title is
the name without the suffix; when no pattern matches, the title falls back
to the input handle. -/
theorem c4_title_suffix_strip :
    ∀ (html cn n : Str),
    (rawTitleMatch html = some (n ++ ytSuffix) →
     containsSub ytSuffix (n ++ List.dropLast ytSuffix) = false →
     extractTitle html cn = n)
  ∧ (rawTitleMatch html = none → extractTitle html cn = cn) := by
  intro html cn n
  constructor
  · intro hm hnc
    unfold extractTitle
    rw [hm]
    exact jsReplaceFirst_append_self ytSuffix (by decide) n hnc
  · intro hm
    unfold extractTitle
    rw [hm]

/-- Witness for C4 at the spec's example: the document title
`"My Channel - YouTube"` yields `"My Channel"`. -/
theorem c4_title_suffix_strip_witness :
    extractTitle htmlMyChannel (str ("handle")) = str ("My Channel") :=
  (c4_title_suffix_strip htmlMyChannel (str ("handle")) (str ("My Channel"))).1
    rfl (by decide)

/-- Counterexample to C4 as stated: for the matched title
`"A - YouTube B - YouTube"` (of the form `name ++ " - YouTube"` with
`name = "A - YouTube B"`), the code removes the first occurrence, producing
`"A B - YouTube"` instead of the claimed `"A - YouTube B"`. -/
theorem c4_counterexample :
    rawTitleMatch htmlDoubleSuffix = some (str ("A - YouTube B") ++ ytSuffix)
  ∧ extractTitle htmlDoubleSuffix (str ("handle")) = str ("A B - YouTube")
  ∧ str ("A B - YouTube") ≠ str ("A - YouTube B") :=
  ⟨rfl, rfl, by decide⟩

/-- C1 (amended): the strategies are started in the fixed order feed
fetcher, HTML extractor, browser scraper, and the first success returns;
when the feed fetcher succeeds, no fallback strategy is invoked.  However,
the call trace is not always one of the three prefixes: when the feed
returns 404 and both fallbacks then fail, the exception of the inner
scrape reaches the outer catch, and the HTML extractor and the browser
scraper are each invoked a second time with the original (unstripped)
handle. -/
theorem c1_first_success_wins :
    ∀ (env : Env) (name : Str),
    (∀ (st : Nat) (feed : ParsedFeed) (a u t : Str),
      env.feedResp (stripAt name) = some (st, some feed) → st ≠ 404 → httpOk st →
      feed.authorName = some a → feed.authorUri = some u → feed.feedTitle = some t →
      fetchChannelFeed env name =
        (Except.ok (feedSuccessData feed a u t), [Call.feed (stripAt name)]))
  ∧ (∃ hn : Str,
      (fetchChannelFeed env name).2 = [Call.feed (stripAt name)]
    ∨ (fetchChannelFeed env name).2 = [Call.feed (stripAt name), Call.html hn]
    ∨ (fetchChannelFeed env name).2 =
        [Call.feed (stripAt name), Call.html hn, Call.browser hn]
    ∨ (fetchChannelFeed env name).2 =
        [Call.feed (stripAt name), Call.html (stripAt name), Call.browser (stripAt name),
         Call.html name]
    ∨ (fetchChannelFeed env name).2 =
        [Call.feed (stripAt name), Call.html (stripAt name), Call.browser (stripAt name),
         Call.html name, Call.browser name]) := by
  intro env name
  refine ⟨fun st feed a u t hresp hst hok ha hu ht =>
    fetchChannelFeed_feed_success env name st feed a u t hresp hst hok ha hu ht, ?_⟩
  have fallbackShapes :
      fetchChannelFeed env name = withFeed (stripAt name) (htmlThenScrape env name) →
      ∃ hn : Str,
        (fetchChannelFeed env name).2 = [Call.feed (stripAt name)]
      ∨ (fetchChannelFeed env name).2 = [Call.feed (stripAt name), Call.html hn]
      ∨ (fetchChannelFeed env name).2 =
          [Call.feed (stripAt name), Call.html hn, Call.browser hn]
      ∨ (fetchChannelFeed env name).2 =
          [Call.feed (stripAt name), Call.html (stripAt name), Call.browser (stripAt name),
           Call.html name]
      ∨ (fetchChannelFeed env name).2 =
          [Call.feed (stripAt name), Call.html (stripAt name), Call.browser (stripAt name),
           Call.html name, Call.browser name] := by
    intro hfe
    rcases htmlThenScrape_calls env name with hc | hc
    · exact ⟨name, Or.inr (Or.inl (by rw [hfe]; unfold withFeed; rw [hc]))⟩
    · exact ⟨name, Or.inr (Or.inr (Or.inl (by rw [hfe]; unfold withFeed; rw [hc])))⟩
  cases hresp : env.feedResp (stripAt name) with
  | none => exact fallbackShapes (fetchChannelFeed_fetch_throws env name hresp)
  | some pr =>
    obtain ⟨st, parsed⟩ := pr
    by_cases hst : st = 404
    · subst hst
      cases hrun : runHtml env (stripAt name) with
      | ok d =>
        have hfe := fetchChannelFeed_404_html_ok env name parsed d hresp hrun
        exact ⟨stripAt name, Or.inr (Or.inl (by rw [hfe]))⟩
      | error e =>
        cases hscr : (runScrape env (stripAt name)).1 with
        | ok d =>
          have hfe := fetchChannelFeed_404_scrape_ok env name parsed e d hresp hrun hscr
          exact ⟨stripAt name, Or.inr (Or.inr (Or.inl (by rw [hfe])))⟩
        | error e2 =>
          have hfe := fetchChannelFeed_404_both_fail env name parsed e e2 hresp hrun hscr
          rcases htmlThenScrape_calls env name with hc | hc
          · exact ⟨name, Or.inr (Or.inr (Or.inr (Or.inl (by rw [hfe]; dsimp only; rw [hc]))))⟩
          · exact ⟨name,
              Or.inr (Or.inr (Or.inr (Or.inr (by rw [hfe]; dsimp only; rw [hc]))))⟩
    · by_cases hok : httpOk st
      · cases parsed with
        | none => exact fallbackShapes (fetchChannelFeed_parse_error env name st hresp hst hok)
        | some feed =>
          cases ha : feed.authorName with
          | none =>
            exact fallbackShapes
              (fetchChannelFeed_missing_field env name st feed hresp hst hok (Or.inl ha))
          | some a =>
            cases hu : feed.authorUri with
            | none =>
              exact fallbackShapes
                (fetchChannelFeed_missing_field env name st feed hresp hst hok
                  (Or.inr (Or.inl hu)))
            | some u =>
              cases ht : feed.feedTitle with
              | none =>
                exact fallbackShapes
                  (fetchChannelFeed_missing_field env name st feed hresp hst hok
                    (Or.inr (Or.inr ht)))
              | some t =>
                have hfe := fetchChannelFeed_feed_success env name st feed a u t
                  hresp hst hok ha hu ht
                exact ⟨name, Or.inl (by rw [hfe])⟩
      · exact fallbackShapes (fetchChannelFeed_status_error env name st parsed hresp hst hok)

/-- Witness for C1: on a concrete environment whose feed answers 200 with
all required fields, the pipeline returns the feed fetcher's record and the
trace holds the feed invocation only. -/
theorem c1_first_success_wins_witness :
    fetchChannelFeed envFeedOk (str ("creator")) =
      (Except.ok (feedSuccessData feedCreator (str ("Creator"))
        (str ("https://www.youtube.com/channel/UCabcdefghijklmnopqrst12"))
        (str ("Creator"))),
       [Call.feed (stripAt (str ("creator")))]) :=
  (c1_first_success_wins envFeedOk (str ("creator"))).1 200 feedCreator
    (str ("Creator"))
    (str ("https://www.youtube.com/channel/UCabcdefghijklmnopqrst12"))
    (str ("Creator")) rfl (by decide) (by decide) rfl rfl rfl

/-- Counterexample to C1 as stated: when the feed answers 404 and both
fallbacks fail, the HTML extractor and the browser scraper each run twice,
so the strategies are not attempted at most once. -/
theorem c1_counterexample :
    (fetchChannelFeed env404All (str ("creator"))).2 =
      [Call.feed (str ("creator")), Call.html (str ("creator")),
       Call.browser (str ("creator")), Call.html (str ("creator")),
       Call.browser (str ("creator"))]
  ∧ List.count (Call.html (str ("creator")))
      ((fetchChannelFeed env404All (str ("creator"))).2) = 2
  ∧ ¬(List.count (Call.html (str ("creator")))
      ((fetchChannelFeed env404All (str ("creator"))).2) ≤ 1) :=
  ⟨by decide, by decide, by decide⟩

/-- C8 (amended): every successful resolution carries a non-null `channelId`
(it is `uri.split("/").pop()` on the feed path, and an explicitly assigned
string on the HTML and browser paths), but nothing checks it against the
stable `UC` + 22 character pattern except the HTML extractor's embedded
fallback regex, so the pattern itself is not an invariant of success. -/
theorem c8_success_channel_id :
    ∀ (env : Env) (name : Str) (d : ResData) (cs : List Call),
    fetchChannelFeed env name = (Except.ok d, cs) → d.channelId.isSome = true := by
  intro env name d cs h
  cases hresp : env.feedResp (stripAt name) with
  | none =>
    rw [fetchChannelFeed_fetch_throws env name hresp] at h
    exact htmlThenScrape_ok_channelId env name d (congrArg Prod.fst h)
  | some pr =>
    obtain ⟨st, parsed⟩ := pr
    by_cases hst : st = 404
    · subst hst
      cases hrun : runHtml env (stripAt name) with
      | ok d0 =>
        rw [fetchChannelFeed_404_html_ok env name parsed d0 hresp hrun] at h
        have hd : d0 = d := Except.ok.inj (congrArg Prod.fst h)
        subst hd
        exact extractChannelIdFromHtml_ok_channelId (env.htmlResp (stripAt name))
          (stripAt name) d0 hrun
      | error e =>
        cases hscr : (runScrape env (stripAt name)).1 with
        | ok d0 =>
          rw [fetchChannelFeed_404_scrape_ok env name parsed e d0 hresp hrun hscr] at h
          have hd : d0 = d := Except.ok.inj (congrArg Prod.fst h)
          subst hd
          exact scrapeChannelInfo_ok_channelId (env.browser (stripAt name))
            (stripAt name) d0 hscr
        | error e2 =>
          rw [fetchChannelFeed_404_both_fail env name parsed e e2 hresp hrun hscr] at h
          exact htmlThenScrape_ok_channelId env name d (congrArg Prod.fst h)
    · by_cases hok : httpOk st
      · cases parsed with
        | none =>
          rw [fetchChannelFeed_parse_error env name st hresp hst hok] at h
          exact htmlThenScrape_ok_channelId env name d (congrArg Prod.fst h)
        | some feed =>
          cases ha : feed.authorName with
          | none =>
            rw [fetchChannelFeed_missing_field env name st feed hresp hst hok (Or.inl ha)] at h
            exact htmlThenScrape_ok_channelId env name d (congrArg Prod.fst h)
          | some a =>
            cases hu : feed.authorUri with
            | none =>
              rw [fetchChannelFeed_missing_field env name st feed hresp hst hok
                (Or.inr (Or.inl hu))] at h
              exact htmlThenScrape_ok_channelId env name d (congrArg Prod.fst h)
            | some u =>
              cases ht : feed.feedTitle with
              | none =>
                rw [fetchChannelFeed_missing_field env name st feed hresp hst hok
                  (Or.inr (Or.inr ht))] at h
                exact htmlThenScrape_ok_channelId env name d (congrArg Prod.fst h)
              | some t =>
                rw [fetchChannelFeed_feed_success env name st feed a u t
                  hresp hst hok ha hu ht] at h
                have hd : feedSuccessData feed a u t = d :=
                  Except.ok.inj (congrArg Prod.fst h)
                rw [← hd]
                exact feedSuccessData_channelId_isSome feed a u t
      · rw [fetchChannelFeed_status_error env name st parsed hresp hst hok] at h
        exact htmlThenScrape_ok_channelId env name d (congrArg Prod.fst h)

/-- Witness for C8: a concrete successful resolution has a non-null
channel ID. -/
theorem c8_success_channel_id_witness :
    (feedSuccessData feedBadId (str ("Creator"))
      (str ("https://www.youtube.com/channel/abc"))
      (str ("Creator"))).channelId.isSome = true :=
  c8_success_channel_id envBadId (str ("creator"))
    (feedSuccessData feedBadId (str ("Creator"))
      (str ("https://www.youtube.com/channel/abc")) (str ("Creator")))
    [Call.feed (stripAt (str ("creator")))] rfl

/-- Counterexample to C8 as stated: a feed whose author URI ends in `abc`
resolves successfully with `channelId = "abc"`, which does not match the
stable channel-ID pattern. -/
theorem c8_counterexample :
    (fetchChannelFeed envBadId (str ("creator"))).1 =
      Except.ok (feedSuccessData feedBadId (str ("Creator"))
        (str ("https://www.youtube.com/channel/abc")) (str ("Creator")))
  ∧ (feedSuccessData feedBadId (str ("Creator"))
      (str ("https://www.youtube.com/channel/abc"))
      (str ("Creator"))).channelId = some (str ("abc"))
  ∧ isStableChannelId (str ("abc")) = false :=
  ⟨rfl, by decide, by decide⟩

/-- C9: which handle the fallback strategies receive depends on how the
feed attempt failed: a 404 feed status hands the fallbacks the handle with
its first `@` removed (`stripAt`), while every other failure (fetch
rejection, other non-2xx status, parse rejection, missing required field)
hands them the original handle unchanged. -/
theorem c9_fallback_handle :
    ∀ (env : Env) (name : Str) (st : Nat) (parsed : Option ParsedFeed) (feed : ParsedFeed),
    (env.feedResp (stripAt name) = some (404, parsed) →
      (fetchChannelFeed env name).2 =
        [Call.feed (stripAt name), Call.html (stripAt name)]
    ∨ (fetchChannelFeed env name).2 =
        [Call.feed (stripAt name), Call.html (stripAt name), Call.browser (stripAt name)]
    ∨ (fetchChannelFeed env name).2 =
        [Call.feed (stripAt name), Call.html (stripAt name), Call.browser (stripAt name),
         Call.html name]
    ∨ (fetchChannelFeed env name).2 =
        [Call.feed (stripAt name), Call.html (stripAt name), Call.browser (stripAt name),
         Call.html name, Call.browser name])
  ∧ (env.feedResp (stripAt name) = none →
      (fetchChannelFeed env name).2 = [Call.feed (stripAt name), Call.html name]
    ∨ (fetchChannelFeed env name).2 =
        [Call.feed (stripAt name), Call.html name, Call.browser name])
  ∧ (env.feedResp (stripAt name) = some (st, parsed) → st ≠ 404 → ¬httpOk st →
      (fetchChannelFeed env name).2 = [Call.feed (stripAt name), Call.html name]
    ∨ (fetchChannelFeed env name).2 =
        [Call.feed (stripAt name), Call.html name, Call.browser name])
  ∧ (env.feedResp (stripAt name) = some (st, none) → st ≠ 404 → httpOk st →
      (fetchChannelFeed env name).2 = [Call.feed (stripAt name), Call.html name]
    ∨ (fetchChannelFeed env name).2 =
        [Call.feed (stripAt name), Call.html name, Call.browser name])
  ∧ (env.feedResp (stripAt name) = some (st, some feed) → st ≠ 404 → httpOk st →
      (feed.authorName = none ∨ feed.authorUri = none ∨ feed.feedTitle = none) →
      (fetchChannelFeed env name).2 = [Call.feed (stripAt name), Call.html name]
    ∨ (fetchChannelFeed env name).2 =
        [Call.feed (stripAt name), Call.html name, Call.browser name]) := by
  intro env name st parsed feed
  have fallbackPinned :
      fetchChannelFeed env name = withFeed (stripAt name) (htmlThenScrape env name) →
      (fetchChannelFeed env name).2 = [Call.feed (stripAt name), Call.html name]
    ∨ (fetchChannelFeed env name).2 =
        [Call.feed (stripAt name), Call.html name, Call.browser name] := by
    intro hfe
    rcases htmlThenScrape_calls env name with hc | hc
    · exact Or.inl (by rw [hfe]; unfold withFeed; rw [hc])
    · exact Or.inr (by rw [hfe]; unfold withFeed; rw [hc])
  refine ⟨?_, ?_, ?_, ?_, ?_⟩
  · intro hresp
    cases hrun : runHtml env (stripAt name) with
    | ok d =>
      exact Or.inl (by rw [fetchChannelFeed_404_html_ok env name parsed d hresp hrun])
    | error e =>
      cases hscr : (runScrape env (stripAt name)).1 with
      | ok d =>
        exact Or.inr (Or.inl
          (by rw [fetchChannelFeed_404_scrape_ok env name parsed e d hresp hrun hscr]))
      | error e2 =>
        have hfe := fetchChannelFeed_404_both_fail env name parsed e e2 hresp hrun hscr
        rcases htmlThenScrape_calls env name with hc | hc
        · exact Or.inr (Or.inr (Or.inl (by rw [hfe]; dsimp only; rw [hc])))
        · exact Or.inr (Or.inr (Or.inr (by rw [hfe]; dsimp only; rw [hc])))
  · intro hresp
    exact fallbackPinned (fetchChannelFeed_fetch_throws env name hresp)
  · intro hresp hst hok
    exact fallbackPinned (fetchChannelFeed_status_error env name st parsed hresp hst hok)
  · intro hresp hst hok
    exact fallbackPinned (fetchChannelFeed_parse_error env name st hresp hst hok)
  · intro hresp hst hok hmiss
    exact fallbackPinned (fetchChannelFeed_missing_field env name st feed hresp hst hok hmiss)

/-- Witness for C9: with a 404 feed answer for the handle `@creator`, every
call in the trace is pinned: the HTML extractor and (when reached) the
browser scraper run with the stripped handle, with only the documented
second round using the original handle. -/
theorem c9_fallback_handle_witness :
    (fetchChannelFeed env404All (str ("@creator"))).2 =
      [Call.feed (stripAt (str ("@creator"))), Call.html (stripAt (str ("@creator")))]
  ∨ (fetchChannelFeed env404All (str ("@creator"))).2 =
      [Call.feed (stripAt (str ("@creator"))), Call.html (stripAt (str ("@creator"))),
       Call.browser (stripAt (str ("@creator")))]
  ∨ (fetchChannelFeed env404All (str ("@creator"))).2 =
      [Call.feed (stripAt (str ("@creator"))), Call.html (stripAt (str ("@creator"))),
       Call.browser (stripAt (str ("@creator"))), Call.html (str ("@creator"))]
  ∨ (fetchChannelFeed env404All (str ("@creator"))).2 =
      [Call.feed (stripAt (str ("@creator"))), Call.html (stripAt (str ("@creator"))),
       Call.browser (stripAt (str ("@creator"))), Call.html (str ("@creator")),
       Call.browser (str ("@creator"))] :=
  (c9_fallback_handle env404All (str ("@creator")) 0 none feedCreator).1 rfl

end FlowFusion

